import Mathlib

/-!
Verification development for the supplement-research web application.

The client-side logic of the repository is shallowly embedded here:
pure functions (PKCE utilities, base64url encoding, the API route handler,
the progress-percentage derivation) become Lean functions, and the stateful
polling/cancellation controller of the home page becomes explicit state
passing over a `ControllerState` record, with one Lean function per
synchronous segment of the JavaScript event loop (the code between two
`await` suspension points runs atomically in the browser, and is one
state-transition function here).
-/

namespace SupplementResearch

/-! ## Byte-level primitives: UTF-8, SHA-256, base64url -/

/-- Truncation to a 32-bit word, `n % 2^32`. -/
def w32 (n : Nat) : Nat := n % 4294967296

/-- 32-bit right rotation. -/
def rotr (x n : Nat) : Nat := w32 ((x >>> n) ||| (x <<< (32 - n)))

/-- UTF-8 encoding of a single character (what `TextEncoder.encode` does
per code point). -/
def utf8EncodeChar (c : Char) : List Nat :=
  let n := c.toNat
  if n < 0x80 then [n]
  else if n < 0x800 then
    [0xC0 ||| (n >>> 6), 0x80 ||| (n &&& 0x3F)]
  else if n < 0x10000 then
    [0xE0 ||| (n >>> 12), 0x80 ||| ((n >>> 6) &&& 0x3F), 0x80 ||| (n &&& 0x3F)]
  else
    [0xF0 ||| (n >>> 18), 0x80 ||| ((n >>> 12) &&& 0x3F),
     0x80 ||| ((n >>> 6) &&& 0x3F), 0x80 ||| (n &&& 0x3F)]

/-- UTF-8 encoding of a string, as the byte list produced by
`new TextEncoder().encode(s)` in `generateCodeChallenge`. -/
def utf8Encode (s : String) : List Nat :=
  (s.data.map utf8EncodeChar).flatten

/-- Modelled from the spec: `crypto.subtle.digest('SHA-256', data)` is a
browser platform primitive, not code of this repository; it is modelled
by the FIPS 180-4 SHA-256 round constants. -/
def shaK : List Nat :=
  [1116352408, 1899447441, 3049323471, 3921009573, 961987163,
   1508970993, 2453635748, 2870763221, 3624381080, 310598401,
   607225278, 1426881987, 1925078388, 2162078206, 2614888103,
   3248222580, 3835390401, 4022224774, 264347078, 604807628,
   770255983, 1249150122, 1555081692, 1996064986, 2554220882,
   2821834349, 2952996808, 3210313671, 3336571891, 3584528711,
   113926993, 338241895, 666307205, 773529912, 1294757372,
   1396182291, 1695183700, 1986661051, 2177026350, 2456956037,
   2730485921, 2820302411, 3259730800, 3345764771, 3516065817,
   3600352804, 4094571909, 275423344, 430227734, 506948616,
   659060556, 883997877, 958139571, 1322822218, 1537002063,
   1747873779, 1955562222, 2024104815, 2227730452, 2361852424,
   2428436474, 2756734187, 3204031479, 3329325298]

/-- SHA-256 initial hash value (FIPS 180-4). -/
def shaH0 : List Nat :=
  [1779033703, 3144134277, 1013904242, 2773480762,
   1359893119, 2600822924, 528734635, 1541459225]

def smallSigma0 (x : Nat) : Nat := (rotr x 7) ^^^ (rotr x 18) ^^^ (x >>> 3)

def smallSigma1 (x : Nat) : Nat := (rotr x 17) ^^^ (rotr x 19) ^^^ (x >>> 10)

def bigSigma0 (x : Nat) : Nat := (rotr x 2) ^^^ (rotr x 13) ^^^ (rotr x 22)

def bigSigma1 (x : Nat) : Nat := (rotr x 6) ^^^ (rotr x 11) ^^^ (rotr x 25)

def shaCh (x y z : Nat) : Nat := (x &&& y) ^^^ ((x ^^^ 0xFFFFFFFF) &&& z)

def shaMaj (x y z : Nat) : Nat := (x &&& y) ^^^ (x &&& z) ^^^ (y &&& z)

/-- SHA-256 message padding: append `0x80`, zero bytes to 56 mod 64, then
the bit length as a 64-bit big-endian integer. -/
def sha256Pad (msg : List Nat) : List Nat :=
  let len := msg.length
  let zeros := (119 - len % 64) % 64
  msg ++ 0x80 :: List.replicate zeros 0 ++
    (List.range 8).map (fun i => ((8 * len) >>> (8 * (7 - i))) &&& 255)

/-- Big-endian 32-bit words from a byte list. -/
def bytesToWords : List Nat → List Nat
  | a :: b :: c :: d :: rest =>
      ((a <<< 24) ||| (b <<< 16) ||| (c <<< 8) ||| d) :: bytesToWords rest
  | _ => []

/-- Extend the 16 block words to the 64-entry message schedule. -/
def extendSchedule (w : List Nat) : List Nat :=
  (List.range 48).foldl (fun w i =>
    w ++ [w32 (smallSigma1 (w.getD (i + 14) 0) + w.getD (i + 9) 0 +
               smallSigma0 (w.getD (i + 1) 0) + w.getD i 0)]) w

/-- One SHA-256 compression round on the working variables `[a,…,h]`. -/
def shaRound (st : List Nat) (k w : Nat) : List Nat :=
  match st with
  | [a, b, c, d, e, f, g, hh] =>
    let t1 := w32 (hh + bigSigma1 e + shaCh e f g + k + w)
    let t2 := w32 (bigSigma0 a + shaMaj a b c)
    [w32 (t1 + t2), a, b, c, w32 (d + t1), e, f, g]
  | _ => st

/-- SHA-256 compression of one 64-byte block into the running hash. -/
def sha256Compress (h : List Nat) (block : List Nat) : List Nat :=
  let ws := extendSchedule (bytesToWords block)
  let st := (List.zip shaK ws).foldl (fun st kw => shaRound st kw.1 kw.2) h
  List.zipWith (fun x y => w32 (x + y)) h st

/-- SHA-256 of a byte list, returning the 32 digest bytes. -/
def sha256 (msg : List Nat) : List Nat :=
  let padded := sha256Pad msg
  let blocks := (List.range (padded.length / 64)).map
    (fun i => (padded.drop (64 * i)).take 64)
  let hfin := blocks.foldl sha256Compress shaH0
  hfin.foldr (fun wd acc =>
    ((wd >>> 24) &&& 255) :: ((wd >>> 16) &&& 255) ::
    ((wd >>> 8) &&& 255) :: (wd &&& 255) :: acc) []

/-- The standard base64 alphabet used by `btoa`. -/
def base64Chars : List Char :=
  "ABCDEFGHIJKLMNOPQRSTUVWXYZabcdefghijklmnopqrstuvwxyz0123456789+/".data

def b64Char (n : Nat) : Char := base64Chars.getD n 'A'

/-- Standard base64 encoding of a byte list with `=` padding, as computed
by `btoa(String.fromCharCode(...buffer))`. -/
def base64EncodeGroups : List Nat → List Char
  | [] => []
  | [a] => [b64Char (a >>> 2), b64Char ((a &&& 3) <<< 4), '=', '=']
  | [a, b] => [b64Char (a >>> 2), b64Char (((a &&& 3) <<< 4) ||| (b >>> 4)),
               b64Char ((b &&& 15) <<< 2), '=']
  | a :: b :: c :: rest =>
      b64Char (a >>> 2) :: b64Char (((a &&& 3) <<< 4) ||| (b >>> 4)) ::
      b64Char (((b &&& 15) <<< 2) ||| (c >>> 6)) :: b64Char (c &&& 63) ::
      base64EncodeGroups rest

/-- `base64URLEncode` from `lib/oauth.ts`: standard base64, then
`+ → -`, `/ → _`, and every `=` removed, exactly the three regex
replacements of the source. -/
def base64URLEncode (buffer : List Nat) : String :=
  let base64 := base64EncodeGroups buffer
  String.mk
    (((base64.map (fun ch => if ch = '+' then '-' else ch)).map
        (fun ch => if ch = '/' then '_' else ch)).filter
      (fun ch => ch ≠ '='))

/-- `generateCodeVerifier` from `lib/oauth.ts`; the 32 bytes produced by
`crypto.getRandomValues` are a parameter, since randomness is external. -/
def generateCodeVerifier (randomBytes : List Nat) : String :=
  base64URLEncode randomBytes

/-- `generateCodeChallenge` from `lib/oauth.ts`: base64url of the SHA-256
digest of the UTF-8 bytes of the verifier. -/
def generateCodeChallenge (verifier : String) : String :=
  base64URLEncode (sha256 (utf8Encode verifier))

/-! ## OAuth form-value persistence (`lib/oauth.ts`)

`localStorage` serialization is modelled at the granularity the source
observes it: a stored slot either holds a JSON rendering of a
well-formed `OAuthFormValues` object (what `JSON.stringify` wrote) or an
arbitrary malformed string; `JSON.parse` succeeds exactly on the former,
which is what the `try`/`catch` in `restoreFormValuesAfterOAuth`
distinguishes. -/

/-- The `OAuthFormValues` interface from `lib/oauth.ts`. -/
structure OAuthFormValues where
  supplementName : Option String := none
  researchFocus : Option String := none
deriving Repr, DecidableEq

/-- Content of the `oauth_form_values` localStorage slot. -/
inductive StoredContent where
  | wellFormed (v : OAuthFormValues)
  | malformed (s : String)
deriving Repr, DecidableEq

/-- `JSON.parse` on a stored slot: succeeds on well-formed content,
throws (caught, yielding `null`) on malformed content. -/
def jsonParseFormValues : StoredContent → Option OAuthFormValues
  | .wellFormed v => some v
  | .malformed _ => none

/-- `saveFormValuesBeforeOAuth` from `lib/oauth.ts`:
`localStorage.setItem(OAUTH_FORM_VALUES_KEY, JSON.stringify(values))`,
overwriting any previous slot content. -/
def saveFormValuesBeforeOAuth (values : OAuthFormValues) : Option StoredContent :=
  some (.wellFormed values)

/-- `restoreFormValuesAfterOAuth` from `lib/oauth.ts`: reads the slot;
if present, removes it and parses (returning `null` on a parse failure);
returns the parse result together with the new slot content. The whole
function is synchronous, so the read and the delete form one atomic
step of the event loop. -/
def restoreFormValuesAfterOAuth (slot : Option StoredContent) :
    Option OAuthFormValues × Option StoredContent :=
  match slot with
  | some c => (jsonParseFormValues c, none)
  | none => (none, none)

/-! ## OAuth initiation (`lib/oauth.ts`) -/

/-- JavaScript string truthiness used by `isOAuthConfigured`:
`undefined` and the empty string are falsy. -/
def truthy : Option String → Bool
  | none => false
  | some s => s != ""

/-- The three environment values `isOAuthConfigured` inspects. -/
structure OAuthConfig where
  client_id : Option String := none
  auth_url : Option String := none
  redirect_uri : Option String := none
deriving Repr, DecidableEq

/-- `isOAuthConfigured` from `lib/oauth.ts`:
`!!(CLIENT_ID && AUTH_URL && REDIRECT_URI)`. -/
def isOAuthConfigured (cfg : OAuthConfig) : Bool :=
  truthy cfg.client_id && truthy cfg.auth_url && truthy cfg.redirect_uri

/-- `sessionStorage`, scoped to the current browsing session: the two
keys `initiateOAuthFlow` writes. A new session starts from an empty
record, so nothing stored here survives into a different session. -/
structure SessionStorage where
  oauth_code_verifier : Option String := none
  oauth_state : Option String := none
deriving Repr, DecidableEq

/-- The authorization URL built by `initiateOAuthFlow`:
`new URL('/auth/v1/oauth/authorize', AUTH_URL)` plus the appended
search parameters, in append order. -/
structure AuthorizationUrl where
  base : String
  path : String
  searchParams : List (String × String)
deriving Repr, DecidableEq

/-- Result of one run of `initiateOAuthFlow`: the session-scoped
storage, the durable localStorage slot for form values, the redirect
target assigned to `window.location.href` (none when the flow was a
no-op), and whether `console.warn` fired. -/
structure InitiateOAuthResult where
  session : SessionStorage
  localFormValues : Option StoredContent
  redirect : Option AuthorizationUrl
  warned : Bool
deriving Repr, DecidableEq

/-- `initiateOAuthFlow` from `lib/oauth.ts`. The random 32-byte draws of
`crypto.getRandomValues` for the verifier and the CSRF state token are
parameters, since randomness is external to the code. -/
def initiateOAuthFlow (cfg : OAuthConfig) (formValues : Option OAuthFormValues)
    (verifierBytes stateBytes : List Nat)
    (session : SessionStorage) (localFormValues : Option StoredContent) :
    InitiateOAuthResult :=
  if !isOAuthConfigured cfg then
    { session := session, localFormValues := localFormValues,
      redirect := none, warned := true }
  else
    let localFormValues1 := match formValues with
      | some v => saveFormValuesBeforeOAuth v
      | none => localFormValues
    let codeVerifier := generateCodeVerifier verifierBytes
    let codeChallenge := generateCodeChallenge codeVerifier
    let session1 := { session with oauth_code_verifier := some codeVerifier }
    let stateToken := generateCodeVerifier stateBytes
    let session2 := { session1 with oauth_state := some stateToken }
    { session := session2,
      localFormValues := localFormValues1,
      redirect := some
        { base := cfg.auth_url.getD "",
          path := "/auth/v1/oauth/authorize",
          searchParams :=
            [("client_id", cfg.client_id.getD ""),
             ("redirect_uri", cfg.redirect_uri.getD ""),
             ("response_type", "code"),
             ("scope", "openid profile email"),
             ("code_challenge", codeChallenge),
             ("code_challenge_method", "S256"),
             ("state", stateToken)] },
      warned := false }

/-! ## Polling controller (`app/page.tsx`, `HomeContent`)

The browser event loop is single-threaded: the code between two `await`
suspension points runs atomically. Each such synchronous segment is one
Lean function on `ControllerState`; the observable states of a run are
exactly the states between segments. -/

/-- The `progress` payload of a `ResearchResult`. -/
structure Progress where
  current_step : Nat
  total_steps : Nat
deriving Repr, DecidableEq

/-- The task snapshot held in the `analysisResult` React state
(the `ResearchResult` interface of `ResearchResults.tsx`, restricted to
the fields the controller logic reads). -/
structure ResearchResult where
  status : String
  output : Option String := none
  progress : Option Progress := none
deriving Repr, DecidableEq

/-- Outcome of one `/api/supplement-research/status` fetch as the
`pollStatus` continuation distinguishes it: an OK JSON payload, a
non-OK response whose body is `error: AUTH_REQUIRED`, or anything else
(a non-OK non-auth response throws and is caught; a network failure is
caught the same way). -/
inductive PollResponse where
  | ok (data : ResearchResult)
  | authRequired
  | otherError
deriving Repr, DecidableEq

/-- Outcome of the best-effort `/api/supplement-research/cancel` fetch. -/
inductive CancelOutcome where
  | success
  | upstreamError (msg : String)
  | networkFailure (msg : String)
deriving Repr, DecidableEq

/-- The mutable state `HomeContent` owns: the `cancelledRef` flag, the
recurring poll timer (`pollIntervalRef.current` modelled by whether it
is non-null), the React state of the controller, and the two
localStorage keys the poll handler clears on `AUTH_REQUIRED`. -/
structure ControllerState where
  cancelled : Bool
  pollIntervalActive : Bool
  analysisResult : Option ResearchResult
  isAnalyzing : Bool
  currentTaskId : Option String
  isCancelling : Bool
  accessToken : Option String
  storedUser : Option String
  user : Option String
  showSignInModal : Bool
  supplementName : String
  researchFocus : String
deriving Repr, DecidableEq

/-- A server-reported status the controller treats as terminal
(`completed`, `failed` or `cancelled`). -/
def isTerminalStatus (st : String) : Bool :=
  st == "completed" || st == "failed" || st == "cancelled"

/-- The synchronous prefix of `pollStatus`, up to the `fetch`: returns
whether a network request is issued (it is not when `cancelledRef` is
already set). -/
def pollStatusSend (s : ControllerState) : Bool :=
  !s.cancelled

/-- The continuation of `pollStatus` after the response arrives (the
code after the `await`s, which runs as one synchronous segment): the
`AUTH_REQUIRED` branch clears both stored keys, the user, and the
timer; other errors are caught and change nothing; an OK payload is
discarded when `cancelledRef` is set, and otherwise becomes the new
snapshot, stopping the timer on a terminal status. -/
def pollStatusResume (s : ControllerState) (r : PollResponse) : ControllerState :=
  match r with
  | .authRequired =>
      { s with accessToken := none, storedUser := none, user := none,
               showSignInModal := true, pollIntervalActive := false,
               isAnalyzing := false }
  | .otherError => s
  | .ok d =>
      if s.cancelled then s
      else
        let s1 := { s with analysisResult := some d }
        if isTerminalStatus d.status then
          let s2 := { s1 with pollIntervalActive := false }
          if d.status != "completed" then { s2 with isAnalyzing := false } else s2
        else s1

/-- `handleReset` from `app/page.tsx`: clears the timer (idempotently),
the snapshot, the analyzing flag, the task id, the cancelling flag, and
both form inputs. -/
def handleReset (s : ControllerState) : ControllerState :=
  { s with pollIntervalActive := false, analysisResult := none,
           isAnalyzing := false, currentTaskId := none, isCancelling := false,
           supplementName := "", researchFocus := "" }

/-- The synchronous prefix of `handleCancel`: sets `cancelledRef` first,
before any network activity; with no current task id it resets at once
and issues no request, otherwise it marks cancelling and issues the
cancel request (the returned flag). -/
def handleCancelSync (s : ControllerState) : ControllerState × Bool :=
  let s1 := { s with cancelled := true }
  match s1.currentTaskId with
  | none => (handleReset s1, false)
  | some _ => ({ s1 with isCancelling := true }, true)

/-- The continuation of `handleCancel` after the cancel fetch settles:
the `try`/`catch` only logs, so every outcome flows into `handleReset`. -/
def handleCancelResume (s : ControllerState) (_o : CancelOutcome) : ControllerState :=
  handleReset s

/-- `handleTaskCreated` from `app/page.tsx`: clears `cancelledRef`,
marks analyzing, stores the task id, polls immediately, and starts the
10-second interval. Returns whether the immediate poll sends a request. -/
def handleTaskCreated (s : ControllerState) (taskId : String) : ControllerState × Bool :=
  let s1 := { s with cancelled := false, isAnalyzing := true,
                     currentTaskId := some taskId }
  ({ s1 with pollIntervalActive := true }, pollStatusSend s1)

/-- Whether a scheduled interval tick issues a status request: the tick
only fires while the interval is installed, and `pollStatus` returns
before fetching when `cancelledRef` is set. -/
def intervalTickSends (s : ControllerState) : Bool :=
  s.pollIntervalActive && pollStatusSend s

/-- `isHomepage` from `app/page.tsx`: the Idle condition
`!isAnalyzing && !analysisResult`. -/
def isHomepage (s : ControllerState) : Bool :=
  !s.isAnalyzing && s.analysisResult.isNone

/-! ## API route `POST /api/supplement-research` (`app/api/supplement-research/route.ts`) -/

/-- The parsed JSON body of a create request. A field absent from the
JSON object is `none`; JavaScript treats both `undefined` and the empty
string as falsy in the `!supplementName` check. -/
structure CreateRequestBody where
  supplementName : Option String := none
  researchFocus : Option String := none
  currentSupplements : Option String := none
  healthGoals : Option String := none
deriving Repr, DecidableEq

/-- JavaScript falsiness of an optional string field. -/
def falsyStr : Option String → Bool
  | none => true
  | some s => s == ""

/-- Extraction of the bearer token from the `Authorization` header:
`authHeader?.startsWith('Bearer ') ? authHeader.slice(7) : undefined`. -/
def bearerToken : Option String → Option String
  | some h => if h.startsWith "Bearer " then some (h.drop 7) else none
  | none => none

/-- Outcome of `callValyuDeepResearch` (the upstream task-creation call,
which is a network effect external to the handler's control flow):
a task object with an optional `deepresearch_id`, a structured auth
error, or any other thrown error. -/
inductive UpstreamOutcome where
  | ok (deepresearchId : Option String)
  | authError
  | otherError (msg : String)
deriving Repr, DecidableEq

/-- The JSON response of the handler, plus `taskCreated`, recording
whether control reached the `callValyuDeepResearch` invocation. -/
structure PostResult where
  status : Nat
  error : Option String := none
  message : Option String := none
  success : Bool := false
  deepresearchId : Option String := none
  taskCreated : Bool := false
deriving Repr, DecidableEq

/-- The `POST` handler of `app/api/supplement-research/route.ts`:
in hosted (non-self-hosted) mode the gate `!valyuAccessToken` tests JS
falsiness, so a bearer token that is absent — or empty, as produced by
the header `Bearer ` through `slice(7)` — yields 401 `AUTH_REQUIRED`
before the body is read; then a falsy `supplementName` yields 400
before any upstream call; otherwise the upstream call is made and its
outcome mapped through the `catch` clauses. -/
def postSupplementResearch (isSelfHosted : Bool) (authHeader : Option String)
    (body : CreateRequestBody) (upstream : UpstreamOutcome) : PostResult :=
  let valyuAccessToken := bearerToken authHeader
  if !isSelfHosted && falsyStr valyuAccessToken then
    { status := 401, error := some "AUTH_REQUIRED",
      message := some "Sign in with Valyu to continue." }
  else if falsyStr body.supplementName then
    { status := 400, error := some "Supplement name is required" }
  else
    match upstream with
    | .authError =>
        { status := 401, error := some "AUTH_REQUIRED",
          message := some "Your session has expired. Please sign in again.",
          taskCreated := true }
    | .otherError m =>
        { status := 500,
          error := some ("Failed to perform deep research: " ++ m),
          taskCreated := true }
    | .ok none =>
        { status := 500,
          error := some "Failed to perform deep research: Failed to create deep research task",
          taskCreated := true }
    | .ok (some tid) =>
        { status := 200, success := true, deepresearchId := some tid,
          taskCreated := true }

/-! ## Progress percentage (`ResearchResults.tsx`)

The view computes `Math.round((current_step / total_steps) * 100)` in
JavaScript numbers, i.e. IEEE-754 binary64. Binary64 arithmetic on the
values reachable here (nonnegative, normal range) is embedded exactly:
a double is a dyadic number (significand × power of two), each
operation rounds its exact result to a 53-bit significand with ties to
even, and `Math.round` is nearest-integer with ties toward positive
infinity. -/

/-- A nonnegative binary64 value, represented exactly as a dyadic
number: significand times `2 ^` exponent. -/
def Dyadic : Type := Nat × Int
deriving instance Repr, DecidableEq for Dyadic

/-- The exact rational value of a dyadic number. -/
def dyadicToRat (d : Dyadic) : ℚ :=
  if 0 ≤ d.2 then (d.1 : ℚ) * ((2 ^ d.2.toNat : Nat) : ℚ)
  else (d.1 : ℚ) / ((2 ^ (-d.2).toNat : Nat) : ℚ)

/-- Base-2 logarithm on naturals by structural recursion on a fuel
argument (so that it evaluates inside the kernel): `log2Fuel f n` is
`⌊log2 n⌋` for `n ≥ 1` whenever `f ≥ n`. -/
def log2Fuel : Nat → Nat → Nat
  | 0, _ => 0
  | fuel + 1, n => if 2 ≤ n then log2Fuel fuel (n / 2) + 1 else 0

/-- `⌊log2 n⌋` for `n ≥ 1` (and `0` at `0`). -/
def natLog2 (n : Nat) : Nat := log2Fuel n n

/-- Nearest-integer rounding of `p / q` with ties to even (the IEEE-754
default rounding), over naturals with `q > 0`. -/
def rheNatDiv (p q : Nat) : Nat :=
  let f := p / q
  let r := p % q
  if 2 * r < q then f
  else if 2 * r > q then f + 1
  else if f % 2 = 0 then f else f + 1

/-- Whether `2 ^ e ≤ c / t` for naturals `c, t > 0`. -/
def le2exp (e : Int) (c t : Nat) : Bool :=
  if 0 ≤ e then t * 2 ^ e.toNat ≤ c else t ≤ c * 2 ^ (-e).toNat

/-- `⌊log2 (c / t)⌋` for naturals `c, t > 0`. -/
def floorLog2Div (c t : Nat) : Int :=
  let e0 : Int := (natLog2 c : Int) - (natLog2 t : Int)
  if le2exp (e0 + 1) c t then e0 + 1
  else if le2exp e0 c t then e0
  else e0 - 1

/-- The binary64 value of the JavaScript division `c / t` (`c, t`
naturals, `t > 0`): the exact quotient rounded to a 53-bit significand,
nearest, ties to even. Overflow and subnormals are not reachable from
the step counts considered. -/
def fl64Div (c t : Nat) : Dyadic :=
  if c = 0 then (0, 0)
  else
    let e := floorLog2Div c t
    let m :=
      if 0 ≤ 52 - e then rheNatDiv (c * 2 ^ (52 - e).toNat) t
      else rheNatDiv c (t * 2 ^ (e - 52).toNat)
    (m, e - 52)

/-- The binary64 value of the JavaScript multiplication `d * 100` for a
nonnegative double `d`: the exact product rounded back to a 53-bit
significand, nearest, ties to even. -/
def fl64Mul100 (d : Dyadic) : Dyadic :=
  let mm := d.1 * 100
  if mm = 0 then (0, 0)
  else
    let k := natLog2 mm
    if k ≤ 52 then (mm * 2 ^ (52 - k), d.2 - (52 - k : Nat))
    else (rheNatDiv mm (2 ^ (k - 52)), d.2 + (k - 52 : Nat))

/-- `Math.round` on a nonnegative double: nearest integer, ties toward
positive infinity, computed exactly on the dyadic value as
`⌊value + 1/2⌋ = (2 p + q) / (2 q)`. -/
def jsMathRound (d : Dyadic) : Nat :=
  if 0 ≤ d.2 then d.1 * 2 ^ d.2.toNat
  else
    let q := 2 ^ (-d.2).toNat
    (2 * d.1 + q) / (2 * q)

/-- The percentage derived by `ResearchResults.tsx`:
`Math.round((current_step / total_steps) * 100)`, with the division and
the multiplication each evaluated in binary64. -/
def derivedPercent (current_step total_steps : Nat) : Nat :=
  jsMathRound (fl64Mul100 (fl64Div current_step total_steps))

/-! ## Sample values used by witnesses and counterexamples -/

/-- A non-terminal poll payload, as in the spec's end-to-end example. -/
def sampleRunning : ResearchResult :=
  { status := "running", progress := some { current_step := 1, total_steps := 5 } }

/-- A completed poll payload. -/
def sampleCompleted : ResearchResult :=
  { status := "completed", output := some "# Report" }

/-- A controller state in the middle of polling a task. -/
def samplePolling : ControllerState :=
  { cancelled := false, pollIntervalActive := true,
    analysisResult := some sampleRunning, isAnalyzing := true,
    currentTaskId := some "abc123", isCancelling := false,
    accessToken := some "token", storedUser := some "user-json",
    user := some "user-json", showSignInModal := false,
    supplementName := "Magnesium", researchFocus := "" }

/-- The controller state right after a `completed` status was applied:
snapshot terminal, timer cleared, a previously issued poll still able to
deliver a late response. -/
def sampleTerminalApplied : ControllerState :=
  { samplePolling with analysisResult := some sampleCompleted,
                       pollIntervalActive := false }

/-- A fully configured OAuth environment. -/
def sampleConfig : OAuthConfig :=
  { client_id := some "client-1", auth_url := some "https://auth.valyu.ai",
    redirect_uri := some "https://app.example/callback" }

/-- Sample form values preserved through the OAuth redirect. -/
def sampleFormValues : OAuthFormValues :=
  { supplementName := some "Magnesium", researchFocus := some "sleep" }

/-! ## The lemma connecting `Math.round` on doubles to exact rounding -/

/-- `Math.round` on a nonnegative double equals Mathlib's `round`
(nearest integer, ties up) of its exact rational value. -/
theorem jsMathRound_eq_round (d : Dyadic) :
    (jsMathRound d : ℤ) = round (dyadicToRat d) := by
  unfold jsMathRound dyadicToRat
  by_cases h : 0 ≤ d.2
  · rw [if_pos h, if_pos h,
      show (d.1 : ℚ) * ((2 ^ d.2.toNat : Nat) : ℚ) = ((d.1 * 2 ^ d.2.toNat : Nat) : ℚ) by
        push_cast; ring,
      round_natCast]
  · rw [if_neg h, if_neg h, round_eq]
    have hq : (0 : ℚ) < ((2 ^ (-d.2).toNat : Nat) : ℚ) := by positivity
    rw [show (d.1 : ℚ) / ((2 ^ (-d.2).toNat : Nat) : ℚ) + 1 / 2
          = ((2 * d.1 + 2 ^ (-d.2).toNat : Nat) : ℚ)
            / ((2 * 2 ^ (-d.2).toNat : Nat) : ℚ) by
        push_cast; field_simp; ring,
      Rat.floor_natCast_div_natCast]
    simp [Int.ofNat_tdiv]

/-! ## Claims -/

/-- C1: if `cancel()` is called while a status poll is in flight, the
synchronous prefix of `handleCancel` sets the cancellation flag before
any network call is issued (and a later poll tick issues none), the
stale poll response is discarded rather than applied to the snapshot,
and — whichever of the cancel continuation and the stale response runs
first — the controller ends in the Idle/cancelled condition, not back
in Polling. -/
theorem cancel_discards_inflight_poll (s : ControllerState) (d : ResearchResult)
    (o : CancelOutcome) (tid : String) (htid : s.currentTaskId = some tid) :
    ((handleCancelSync s).1.cancelled = true ∧
      pollStatusSend (handleCancelSync s).1 = false) ∧
    (pollStatusResume (handleCancelSync s).1 (.ok d)).analysisResult
      = (handleCancelSync s).1.analysisResult ∧
    (isHomepage (handleCancelResume (pollStatusResume (handleCancelSync s).1 (.ok d)) o)
        = true ∧
      (handleCancelResume (pollStatusResume (handleCancelSync s).1 (.ok d)) o).cancelled
        = true) ∧
    (isHomepage (pollStatusResume (handleCancelResume (handleCancelSync s).1 o) (.ok d))
        = true ∧
      (pollStatusResume (handleCancelResume (handleCancelSync s).1 o) (.ok d)).cancelled
        = true) := by
  simp [handleCancelSync, htid, pollStatusResume, pollStatusSend,
        handleCancelResume, handleReset, isHomepage]

/-- Witness for C1 at a concrete polling state. -/
theorem cancel_discards_inflight_poll_witness :
    ((handleCancelSync samplePolling).1.cancelled = true ∧
      pollStatusSend (handleCancelSync samplePolling).1 = false) ∧
    (pollStatusResume (handleCancelSync samplePolling).1 (.ok sampleRunning)).analysisResult
      = (handleCancelSync samplePolling).1.analysisResult ∧
    (isHomepage (handleCancelResume
        (pollStatusResume (handleCancelSync samplePolling).1 (.ok sampleRunning))
        .success) = true ∧
      (handleCancelResume
        (pollStatusResume (handleCancelSync samplePolling).1 (.ok sampleRunning))
        .success).cancelled = true) ∧
    (isHomepage (pollStatusResume
        (handleCancelResume (handleCancelSync samplePolling).1 .success)
        (.ok sampleRunning)) = true ∧
      (pollStatusResume
        (handleCancelResume (handleCancelSync samplePolling).1 .success)
        (.ok sampleRunning)).cancelled = true) :=
  cancel_discards_inflight_poll samplePolling sampleRunning .success "abc123" (by decide)

/-- C2 counterexample: with the snapshot already terminal (`completed`,
timer cleared), a poll response that was still in flight when the
terminal status was applied is applied to the snapshot when it arrives,
changing it — so terminal is not sticky against in-flight responses. -/
theorem terminal_snapshot_changed_by_inflight_poll :
    sampleTerminalApplied.analysisResult.map ResearchResult.status = some "completed" ∧
    sampleTerminalApplied.cancelled = false ∧
    (pollStatusResume sampleTerminalApplied (.ok sampleRunning)).analysisResult
      ≠ sampleTerminalApplied.analysisResult ∧
    (pollStatusResume sampleTerminalApplied (.ok sampleRunning)).analysisResult.map
      ResearchResult.status = some "running" := by
  decide

/-- C2 amended: once a terminal status is applied to the snapshot the
poll timer is cleared, so no further poll is initiated by interval
ticks, and re-applying the same terminal response leaves the state
unchanged; stickiness holds only against new polls, not against a
response already in flight (see the counterexample). -/
theorem terminal_stops_timer_and_is_idempotent (s : ControllerState)
    (d : ResearchResult) (hterm : isTerminalStatus d.status = true)
    (hnc : s.cancelled = false) :
    (pollStatusResume s (.ok d)).pollIntervalActive = false ∧
    intervalTickSends (pollStatusResume s (.ok d)) = false ∧
    pollStatusResume (pollStatusResume s (.ok d)) (.ok d) = pollStatusResume s (.ok d) := by
  simp only [pollStatusResume, hnc, Bool.false_eq_true, if_false, hterm, if_true,
    intervalTickSends, pollStatusSend]
  by_cases hc : d.status != "completed" <;>
    simp [hc, isTerminalStatus, hterm]

/-- Witness for the amended C2 at a concrete state and payload. -/
theorem terminal_stops_timer_witness :
    (pollStatusResume samplePolling (.ok sampleCompleted)).pollIntervalActive = false ∧
    intervalTickSends (pollStatusResume samplePolling (.ok sampleCompleted)) = false ∧
    pollStatusResume (pollStatusResume samplePolling (.ok sampleCompleted))
        (.ok sampleCompleted)
      = pollStatusResume samplePolling (.ok sampleCompleted) :=
  terminal_stops_timer_and_is_idempotent samplePolling sampleCompleted
    (by decide) (by decide)

/-- C3: a status poll reporting `AUTH_REQUIRED` clears the stored access
token and the stored user profile in the same transition — the whole
continuation runs as one synchronous event-loop segment, so no
observable state has exactly one of the two cleared — and stops the
poll timer. -/
theorem auth_required_clears_both_keys (s : ControllerState) :
    (pollStatusResume s .authRequired).accessToken = none ∧
    (pollStatusResume s .authRequired).storedUser = none ∧
    (pollStatusResume s .authRequired).pollIntervalActive = false ∧
    (pollStatusResume s .authRequired).accessToken.isNone
      = (pollStatusResume s .authRequired).storedUser.isNone := by
  simp [pollStatusResume]

/-- C4: cancellation is best-effort — the final state after the cancel
request settles does not depend on its outcome (success, upstream
error, or network failure), and local cleanup always runs: timer
cleared, snapshot, task id and both form inputs reset, controller back
in the Idle condition. -/
theorem cancel_cleanup_regardless_of_outcome (s : ControllerState)
    (o o' : CancelOutcome) (tid : String) (htid : s.currentTaskId = some tid) :
    (handleCancelSync s).2 = true ∧
    handleCancelResume (handleCancelSync s).1 o
      = handleCancelResume (handleCancelSync s).1 o' ∧
    (handleCancelResume (handleCancelSync s).1 o).pollIntervalActive = false ∧
    (handleCancelResume (handleCancelSync s).1 o).analysisResult = none ∧
    (handleCancelResume (handleCancelSync s).1 o).currentTaskId = none ∧
    (handleCancelResume (handleCancelSync s).1 o).supplementName = "" ∧
    (handleCancelResume (handleCancelSync s).1 o).researchFocus = "" ∧
    isHomepage (handleCancelResume (handleCancelSync s).1 o) = true := by
  simp [handleCancelSync, htid, handleCancelResume, handleReset, isHomepage]

/-- Witness for C4 at a concrete polling state and two distinct
outcomes of the cancel request. -/
theorem cancel_cleanup_witness :
    (handleCancelSync samplePolling).2 = true ∧
    handleCancelResume (handleCancelSync samplePolling).1 (.upstreamError "boom")
      = handleCancelResume (handleCancelSync samplePolling).1 (.networkFailure "down") ∧
    (handleCancelResume (handleCancelSync samplePolling).1
      (.upstreamError "boom")).pollIntervalActive = false ∧
    (handleCancelResume (handleCancelSync samplePolling).1
      (.upstreamError "boom")).analysisResult = none ∧
    (handleCancelResume (handleCancelSync samplePolling).1
      (.upstreamError "boom")).currentTaskId = none ∧
    (handleCancelResume (handleCancelSync samplePolling).1
      (.upstreamError "boom")).supplementName = "" ∧
    (handleCancelResume (handleCancelSync samplePolling).1
      (.upstreamError "boom")).researchFocus = "" ∧
    isHomepage (handleCancelResume (handleCancelSync samplePolling).1
      (.upstreamError "boom")) = true :=
  cancel_cleanup_regardless_of_outcome samplePolling (.upstreamError "boom")
    (.networkFailure "down") "abc123" (by decide)

/-- C5: `restoreFormValuesAfterOAuth` delivers saved form values at most
once — after a save, the first call returns them and empties the slot,
the second call returns `null`, and a call with nothing stored returns
`null`; the read and the delete are one synchronous step. -/
theorem restore_form_values_at_most_once (v : OAuthFormValues) :
    (restoreFormValuesAfterOAuth (saveFormValuesBeforeOAuth v)).1 = some v ∧
    (restoreFormValuesAfterOAuth
        (restoreFormValuesAfterOAuth (saveFormValuesBeforeOAuth v)).2).1 = none ∧
    (restoreFormValuesAfterOAuth none).1 = none ∧
    (restoreFormValuesAfterOAuth none).2 = none := by
  simp [restoreFormValuesAfterOAuth, saveFormValuesBeforeOAuth, jsonParseFormValues]

/-- C6: `generateCodeChallenge` is deterministic, equals the base64url
encoding (`+ → -`, `/ → _`, `=` removed) of the SHA-256 digest of the
verifier, and matches the reference computation on the FIPS 180-4 test
vector `"abc"`. -/
theorem code_challenge_deterministic_and_reference :
    (∀ v1 v2 : String, v1 = v2 → generateCodeChallenge v1 = generateCodeChallenge v2) ∧
    (∀ v : String, generateCodeChallenge v = base64URLEncode (sha256 (utf8Encode v))) ∧
    sha256 (utf8Encode "abc") =
      [186, 120, 22, 191, 143, 1, 207, 234, 65, 65, 64, 222, 93, 174, 34, 35,
       176, 3, 97, 163, 150, 23, 122, 156, 180, 16, 255, 97, 242, 0, 21, 173] ∧
    generateCodeChallenge "abc" = "ungWv48Bz-pBQUDeXa4iI7ADYaOWF3qctBD_YfIAFa0" := by
  refine ⟨fun v1 v2 h => by rw [h], fun v => rfl, by decide, by decide⟩

/-- Witness for C6: determinism applied at the concrete verifier. -/
theorem code_challenge_deterministic_witness :
    generateCodeChallenge "abc" = generateCodeChallenge "abc" :=
  code_challenge_deterministic_and_reference.1 "abc" "abc" rfl

/-- C7: with full OAuth configuration, `initiateOAuthFlow` redirects to
`{auth_url}/auth/v1/oauth/authorize` carrying exactly the parameters
`client_id`, `redirect_uri`, `response_type=code`,
`scope="openid profile email"`, `code_challenge`,
`code_challenge_method=S256` and `state`, in that order; with any
configuration value absent it is a no-op that only logs a warning. -/
theorem initiate_oauth_flow_redirect (cfg : OAuthConfig)
    (fv : Option OAuthFormValues) (rv rs : List Nat)
    (ss : SessionStorage) (lf : Option StoredContent) :
    (isOAuthConfigured cfg = true →
      (initiateOAuthFlow cfg fv rv rs ss lf).redirect = some
        { base := cfg.auth_url.getD "",
          path := "/auth/v1/oauth/authorize",
          searchParams :=
            [("client_id", cfg.client_id.getD ""),
             ("redirect_uri", cfg.redirect_uri.getD ""),
             ("response_type", "code"),
             ("scope", "openid profile email"),
             ("code_challenge", generateCodeChallenge (generateCodeVerifier rv)),
             ("code_challenge_method", "S256"),
             ("state", generateCodeVerifier rs)] } ∧
      (initiateOAuthFlow cfg fv rv rs ss lf).warned = false) ∧
    (isOAuthConfigured cfg = false →
      initiateOAuthFlow cfg fv rv rs ss lf =
        { session := ss, localFormValues := lf, redirect := none, warned := true }) := by
  constructor
  · intro hconf
    simp [initiateOAuthFlow, hconf]
  · intro hconf
    simp [initiateOAuthFlow, hconf]

/-- Witness for C7 at a concrete configured environment. -/
theorem initiate_oauth_flow_redirect_witness :
    (initiateOAuthFlow sampleConfig none (List.replicate 32 0) (List.replicate 32 1)
        {} none).redirect = some
      { base := sampleConfig.auth_url.getD "",
        path := "/auth/v1/oauth/authorize",
        searchParams :=
          [("client_id", sampleConfig.client_id.getD ""),
           ("redirect_uri", sampleConfig.redirect_uri.getD ""),
           ("response_type", "code"),
           ("scope", "openid profile email"),
           ("code_challenge",
             generateCodeChallenge (generateCodeVerifier (List.replicate 32 0))),
           ("code_challenge_method", "S256"),
           ("state", generateCodeVerifier (List.replicate 32 1))] } ∧
    (initiateOAuthFlow sampleConfig none (List.replicate 32 0) (List.replicate 32 1)
        {} none).warned = false :=
  (initiate_oauth_flow_redirect sampleConfig none (List.replicate 32 0)
    (List.replicate 32 1) {} none).1 (by decide)

/-- C8: `initiateOAuthFlow` stores the code verifier and the CSRF state
token only in the session-scoped storage record (which does not survive
into a new browsing session), while the optional form values go to the
durable localStorage slot, which is left untouched when no form values
are given. -/
theorem oauth_verifier_session_scoped (cfg : OAuthConfig)
    (fv : Option OAuthFormValues) (rv rs : List Nat)
    (ss : SessionStorage) (lf : Option StoredContent)
    (hconf : isOAuthConfigured cfg = true) :
    (initiateOAuthFlow cfg fv rv rs ss lf).session.oauth_code_verifier
      = some (generateCodeVerifier rv) ∧
    (initiateOAuthFlow cfg fv rv rs ss lf).session.oauth_state
      = some (generateCodeVerifier rs) ∧
    (∀ v, fv = some v →
      (initiateOAuthFlow cfg fv rv rs ss lf).localFormValues
        = some (.wellFormed v)) ∧
    (fv = none → (initiateOAuthFlow cfg fv rv rs ss lf).localFormValues = lf) := by
  refine ⟨?_, ?_, ?_, ?_⟩ <;>
    simp [initiateOAuthFlow, hconf, saveFormValuesBeforeOAuth]
  · intro v hv
    simp [hv]
  · intro hv
    simp [hv]

/-- Witness for C8 at a concrete configured environment with form
values present. -/
theorem oauth_verifier_session_scoped_witness :
    (initiateOAuthFlow sampleConfig (some sampleFormValues) (List.replicate 32 0)
        (List.replicate 32 1) {} none).session.oauth_code_verifier
      = some (generateCodeVerifier (List.replicate 32 0)) ∧
    (initiateOAuthFlow sampleConfig (some sampleFormValues) (List.replicate 32 0)
        (List.replicate 32 1) {} none).session.oauth_state
      = some (generateCodeVerifier (List.replicate 32 1)) ∧
    (∀ v, some sampleFormValues = some v →
      (initiateOAuthFlow sampleConfig (some sampleFormValues) (List.replicate 32 0)
          (List.replicate 32 1) {} none).localFormValues
        = some (.wellFormed v)) ∧
    (some sampleFormValues = none →
      (initiateOAuthFlow sampleConfig (some sampleFormValues) (List.replicate 32 0)
          (List.replicate 32 1) {} none).localFormValues = none) :=
  oauth_verifier_session_scoped sampleConfig (some sampleFormValues)
    (List.replicate 32 0) (List.replicate 32 1) {} none (by decide)

/-- C9 counterexample: at `{current_step := 23, total_steps := 40}` the
view computes `Math.round((23/40)*100)` in binary64, whose value is
`57.49999999999999…`, showing `57`; the exact `round(100·23/40)` is
`58`, so the displayed percentage is not `round(100·c/t)` for every
payload. -/
theorem derived_percent_not_exact_round :
    derivedPercent 23 40 = 57 ∧
    round ((100 * 23 : ℚ) / 40) = 58 ∧
    (derivedPercent 23 40 : ℤ) ≠ round ((100 * 23 : ℚ) / 40) := by
  refine ⟨by decide, by norm_num [round_eq], ?_⟩
  rw [show derivedPercent 23 40 = 57 from by decide]
  norm_num [round_eq]

/-- C9 amended: the percentage shown is `Math.round((c/t)*100)` in
binary64 arithmetic; it equals the exact `round(100·c/t)` whenever the
binary64 evaluation of `(c/t)*100` is exact, and on the spec's example
`{3,10}` it is `30`; it differs on payloads where the double rounding
falls the other side of a half (see the counterexample). -/
theorem derived_percent_amended :
    (∀ c t : Nat, 0 < t →
      dyadicToRat (fl64Mul100 (fl64Div c t)) = (100 * c : ℚ) / t →
      (derivedPercent c t : ℤ) = round ((100 * c : ℚ) / t)) ∧
    derivedPercent 3 10 = 30 := by
  refine ⟨fun c t ht hexact => ?_, by decide⟩
  unfold derivedPercent
  rw [jsMathRound_eq_round, hexact]

/-- Witness for the amended C9 at `{1, 2}`, where the binary64
evaluation of `(1/2)*100` is exact. -/
theorem derived_percent_amended_witness :
    (derivedPercent 1 2 : ℤ) = round ((100 * 1 : ℚ) / 2) :=
  derived_percent_amended.1 1 2 (by decide)
    (by
      rw [show fl64Mul100 (fl64Div 1 2) = ((7036874417766400 : Nat), (-47 : Int))
        from by decide]
      norm_num [dyadicToRat, show Int.toNat 47 = 47 from rfl])

/-- C10: a POST to `/api/supplement-research` that passes the
authentication gate (self-hosted mode, or a non-falsy bearer token)
but has no `supplementName` gets HTTP 400 with
`error = "Supplement name is required"` and no research task is
created; in hosted mode a falsy bearer token — absent header or the
empty token from the header `Bearer ` — is checked first, so the 401
`AUTH_REQUIRED` response takes precedence for every body and upstream
behaviour. -/
theorem post_missing_supplement_name (isSelfHosted : Bool)
    (authHeader : Option String) (body : CreateRequestBody)
    (upstream : UpstreamOutcome)
    (hauth : isSelfHosted = true ∨ falsyStr (bearerToken authHeader) = false)
    (hname : body.supplementName = none) :
    postSupplementResearch isSelfHosted authHeader body upstream =
      { status := 400, error := some "Supplement name is required" } ∧
    (postSupplementResearch isSelfHosted authHeader body upstream).taskCreated = false ∧
    (∀ (ah : Option String) (body2 : CreateRequestBody) (up2 : UpstreamOutcome),
      falsyStr (bearerToken ah) = true →
      postSupplementResearch false ah body2 up2 =
        { status := 401, error := some "AUTH_REQUIRED",
          message := some "Sign in with Valyu to continue." }) := by
  have hcond : (!isSelfHosted && falsyStr (bearerToken authHeader)) = false := by
    rcases hauth with h | h
    · simp [h]
    · simp [h]
  refine ⟨?_, ?_, ?_⟩
  · simp [postSupplementResearch, hcond, hname, show falsyStr none = true from rfl]
  · simp [postSupplementResearch, hcond, hname, show falsyStr none = true from rfl]
  · intro ah body2 up2 hah
    simp [postSupplementResearch, hah]

/-- Witness for C10: self-hosted mode, a body without a supplement
name, and an upstream that would succeed. -/
theorem post_missing_supplement_name_witness :
    postSupplementResearch true none { supplementName := none } (.ok (some "abc123")) =
      { status := 400, error := some "Supplement name is required" } ∧
    (postSupplementResearch true none { supplementName := none }
      (.ok (some "abc123"))).taskCreated = false ∧
    (∀ (ah : Option String) (body2 : CreateRequestBody) (up2 : UpstreamOutcome),
      falsyStr (bearerToken ah) = true →
      postSupplementResearch false ah body2 up2 =
        { status := 401, error := some "AUTH_REQUIRED",
          message := some "Sign in with Valyu to continue." }) :=
  post_missing_supplement_name true none { supplementName := none }
    (.ok (some "abc123")) (Or.inl rfl) rfl

end SupplementResearch
